import Mathlib

/-!
# Verification of the LLGCA ambulance-dispatch pipeline

Shallow embedding of the dispatch-relevant functions of
`patient_initiate_ambulance_workflow.py`, `patient_initiate_ambulance_dashboard.py`
and `realtime_incident_ambulance_workflow.py`, with theorems settling the
spec claims about the severity scorer, facility matcher, route/ETA estimator
and corridor activator.

Modelling conventions:
* Python `int` is modelled by `ℤ` (ages, scores, minutes, bed counts).
* Python `float` quantities (distances in km) are modelled by `ℚ`; the float
  products `int(n * 0.5)`, `int(n * 0.9)`, `int(n * 0.55)`, `int(n * 0.85)`,
  `int(n * 0.7)`, `int(d * 1.8)` of the source are modelled as exact rational
  products followed by floor (all operands are non-negative in every use, so
  Python's truncation toward zero is floor).
* `random`-generated data (bed counts, GPS jitter) and external calls
  (geodesic distance, the Cerebras oracle) are passed in as parameters.
-/

namespace LLGCA

/-- `EmergencyType(str, Enum)` of `patient_initiate_ambulance_workflow.py`. -/
inductive EmergencyType
  | cardiac | stroke | accident | breathing | unconscious
  | bleeding | burns | poisoning | other
deriving DecidableEq, Repr

/-- `CriticalityLevel(str, Enum)` of `patient_initiate_ambulance_workflow.py`. -/
inductive CriticalityLevel
  | critical | serious | moderate | minor
deriving DecidableEq, Repr

/-- Numeric rank of a severity tier (minor lowest), used to state tier
monotonicity; not part of the source, a measure on the enumeration. -/
def tierRank : CriticalityLevel → ℤ
  | .minor => 0
  | .moderate => 1
  | .serious => 2
  | .critical => 3

/-- The `emergency_scores` dict of `assess_patient_with_ai`
(`patient_initiate_ambulance_workflow.py` lines 291-301). -/
def emergency_scores : EmergencyType → ℤ
  | .cardiac => 4
  | .stroke => 4
  | .accident => 3
  | .breathing => 3
  | .unconscious => 4
  | .bleeding => 3
  | .burns => 2
  | .poisoning => 3
  | .other => 1

/-- Age contribution of `assess_patient_with_ai`
(`patient_initiate_ambulance_workflow.py` lines 263-275): an `if/elif` chain,
so exactly one band applies. -/
def agePoints (age : ℤ) : ℤ :=
  if age < 1 then 3
  else if age < 5 then 2
  else if 75 < age then 2
  else if 65 < age then 1
  else 0

/-- Result record of `assess_patient_with_ai` (the fields the claims are
about: `PatientAssessment` of `patient_initiate_ambulance_workflow.py`). -/
structure PatientAssessment where
  patient_critical_score : ℤ
  severity_level : CriticalityLevel
  green_corridor_required : Bool
  ambulance_priority : String
  estimated_response_time : ℤ
deriving DecidableEq, Repr

/-- The raw (pre-cap) `pcs_score` accumulated by `assess_patient_with_ai`
(`patient_initiate_ambulance_workflow.py` lines 260-303): age bands, then
+4 if unconscious, +5 if not breathing, +2 if bleeding, then the
emergency-type table. -/
def pcs_raw (age : ℤ) (is_conscious is_breathing any_bleeding : Bool)
    (etype : EmergencyType) : ℤ :=
  agePoints age
  + (if is_conscious then 0 else 4)
  + (if is_breathing then 0 else 5)
  + (if any_bleeding then 2 else 0)
  + emergency_scores etype

/-- `assess_patient_with_ai` (`patient_initiate_ambulance_workflow.py`
lines 256-366), as a pure function of the request fields it reads:
raw score capped at 10 (`pcs_score = min(pcs_score, 10)`), then
severity/corridor/priority by the threshold branch chain 8/6/4. -/
def assess_patient_with_ai (age : ℤ) (is_conscious is_breathing any_bleeding : Bool)
    (etype : EmergencyType) : PatientAssessment :=
  let pcs := min (pcs_raw age is_conscious is_breathing any_bleeding etype) 10
  if 8 ≤ pcs then
    ⟨pcs, .critical, true, "CRITICAL", 8⟩
  else if 6 ≤ pcs then
    ⟨pcs, .serious, true, "HIGH", 12⟩
  else if 4 ≤ pcs then
    ⟨pcs, .moderate, false, "MEDIUM", 18⟩
  else
    ⟨pcs, .minor, false, "LOW", 25⟩

/-- The inline criticality score of `collect_family_emergency_details`
(`patient_initiate_ambulance_workflow.py` lines 200-206); the dashboard
version `dashboard_collect_family_emergency`
(`patient_initiate_ambulance_dashboard.py` lines 76-82) is line-for-line
identical, so one definition embeds both. -/
def intake_criticality_score (is_conscious is_breathing any_bleeding : Bool)
    (etype : EmergencyType) (age : ℤ) : ℤ :=
  (if is_conscious then 0 else 4)
  + (if is_breathing then 0 else 5)
  + (if any_bleeding then 2 else 0)
  + (if etype = .cardiac ∨ etype = .stroke then 3 else 0)
  + (if 65 < age then 1 else 0)
  + (if age < 5 then 2 else 0)

/-- The inline criticality level of `collect_family_emergency_details`
(`patient_initiate_ambulance_workflow.py` lines 209-216) and of
`dashboard_collect_family_emergency` (dashboard lines 85-92):
thresholds 8 / 5 / 2. -/
def intake_criticality_level (score : ℤ) : CriticalityLevel :=
  if 8 ≤ score then .critical
  else if 5 ≤ score then .serious
  else if 2 ≤ score then .moderate
  else .minor

/-- Severity score asserted by the spec's reading of the scorer: every
applicable age-band weight summed (age<5 → +2, age>65 → +1, age>75 → +2),
flags and category added, clamped to [0,10].  Follows the spec's words, for
comparison with `assess_patient_with_ai`. -/
def claimedSeverityScore (age : ℤ) (is_conscious is_breathing any_bleeding : Bool)
    (etype : EmergencyType) : ℤ :=
  min ((if is_conscious then 0 else 4)
    + (if is_breathing then 0 else 5)
    + (if any_bleeding then 2 else 0)
    + emergency_scores etype
    + (if age < 5 then 2 else 0)
    + (if 65 < age then 1 else 0)
    + (if 75 < age then 2 else 0)) 10

/-! ## Patient-workflow facility matcher (`check_hospital_bed_availability`) -/

/-- Static per-hospital data of the `hospital_data` table
(`patient_initiate_ambulance_workflow.py` lines 374-399). -/
structure HospitalStatic where
  id : String
  trauma_level : ℤ
  specialties : List String
deriving DecidableEq, Repr

/-- The per-call randomly simulated availability (lines 410-426): the
values of `available_beds`, `icu_beds` and `load` before the critical
override.  The `random.randint` draws are external, so they are inputs;
`available_beds = max(0, ...)` makes the generated count non-negative. -/
structure GenAvail where
  beds : ℤ
  icu : ℤ
  load : String
deriving DecidableEq, Repr

/-- `RealTimeHospital` (the fields the claims read). -/
structure RealTimeHospital where
  id : String
  available_beds : ℤ
  icu_beds : ℤ
  trauma_level : ℤ
  distance_km : ℚ
  current_load : String
  specialties : List String
deriving DecidableEq, Repr

/-- The critical override of `check_hospital_bed_availability`
(`patient_initiate_ambulance_workflow.py` lines 428-433): when the
assessment tier is critical and the generated bed count is 0, one
emergency bed is allocated (`available_beds = 1`), ICU floor 1, load
`CRITICAL_OVERRIDE`. -/
def applyCriticalOverride (sev : CriticalityLevel) (g : GenAvail) : GenAvail :=
  if sev = .critical ∧ g.beds = 0 then ⟨1, max 1 g.icu, "CRITICAL_OVERRIDE"⟩ else g

/-- Assembling the `RealTimeHospital` record (lines 435-448) from static
data, the geodesic distance (external input) and the (post-override)
generated availability. -/
def buildHospital (s : HospitalStatic) (dist : ℚ) (g : GenAvail) : RealTimeHospital :=
  ⟨s.id, g.beds, g.icu, s.trauma_level, dist, g.load, s.specialties⟩

/-- `hospital_priority` (`patient_initiate_ambulance_workflow.py` lines
460-469): `specialty_match` starts at 0 and is set to 1 on a cardiac or
stroke specialty match, else to 2 when the facility has trauma/emergency;
the sort key is `(specialty_match, distance_km, -available_beds)`. -/
def hospital_priority (etype : EmergencyType) (h : RealTimeHospital) : ℤ × ℚ × ℤ :=
  let specialty_match : ℤ :=
    if etype = .cardiac ∧ h.specialties.contains "cardiology" then 1
    else if etype = .stroke ∧
        (h.specialties.contains "neurology" ∨ h.specialties.contains "neurosurgery") then 1
    else if h.specialties.contains "trauma" ∨ h.specialties.contains "emergency" then 2
    else 0
  (specialty_match, h.distance_km, -h.available_beds)

/-- Lexicographic order on the sort key, as Python's tuple comparison used
by `available_hospitals.sort(key=hospital_priority)`. -/
def keyLE (a b : ℤ × ℚ × ℤ) : Prop :=
  a.1 < b.1 ∨ (a.1 = b.1 ∧ (a.2.1 < b.2.1 ∨ (a.2.1 = b.2.1 ∧ a.2.2 ≤ b.2.2)))

instance : DecidableRel keyLE := fun a b =>
  inferInstanceAs (Decidable (a.1 < b.1 ∨ (a.1 = b.1 ∧ (a.2.1 < b.2.1
    ∨ (a.2.1 = b.2.1 ∧ a.2.2 ≤ b.2.2)))))

/-- `available_hospitals.sort(key=hospital_priority)` (line 471): a stable
ascending sort by the key. -/
def sortHospitals (etype : EmergencyType) (hs : List RealTimeHospital) :
    List RealTimeHospital :=
  List.insertionSort
    (fun a b => keyLE (hospital_priority etype a) (hospital_priority etype b)) hs

/-- `check_hospital_bed_availability`
(`patient_initiate_ambulance_workflow.py` lines 368-482), as a function of
the emergency type, the assessment tier, and the per-hospital
(static, distance, generated-availability) triples: apply the critical
override, keep a hospital iff it has beds or the tier is critical, sort by
`hospital_priority`.  The function recomputes the random availability on
every call and keeps no state between calls. -/
def check_hospital_bed_availability (etype : EmergencyType) (sev : CriticalityLevel)
    (hs : List (HospitalStatic × ℚ × GenAvail)) : List RealTimeHospital :=
  let built := hs.map (fun p => buildHospital p.1 p.2.1 (applyCriticalOverride sev p.2.2))
  let avail := built.filter (fun h => decide (0 < h.available_beds ∨ sev = .critical))
  sortHospitals etype avail

/-- The selected hospital is the head of the sorted candidate list
(`available_hospitals[0]`, line 474). -/
def selectPatientHospital (etype : EmergencyType) (sev : CriticalityLevel)
    (hs : List (HospitalStatic × ℚ × GenAvail)) : Option RealTimeHospital :=
  (check_hospital_bed_availability etype sev hs).head?

/-- Specialty-match rank asserted by the claim (spec §4.3): 0 on a
specialty match, 1 for a general trauma/emergency facility, 2 otherwise.
Follows the spec's words, for comparison with `hospital_priority`. -/
def claimedSpecialtyRank (etype : EmergencyType) (h : RealTimeHospital) : ℤ :=
  if (etype = .cardiac ∧ h.specialties.contains "cardiology")
      ∨ (etype = .stroke ∧
          (h.specialties.contains "neurology" ∨ h.specialties.contains "neurosurgery")) then 0
  else if h.specialties.contains "trauma" ∨ h.specialties.contains "emergency" then 1
  else 2

/-! ## Route/ETA estimators -/

/-- Time-of-day speed and traffic label of `calculate_patient_route`
(`patient_initiate_ambulance_workflow.py` lines 493-502). -/
def patientBaseSpeed (hour : ℕ) : ℚ × String :=
  if (7 ≤ hour ∧ hour ≤ 10) ∨ (17 ≤ hour ∧ hour ≤ 20) then (15, "HEAVY")
  else if 11 ≤ hour ∧ hour ≤ 16 then (25, "MODERATE")
  else (35, "LIGHT")

/-- `PatientRoute` (the fields the claims read). -/
structure PatientRoute where
  distance_km : ℚ
  estimated_time_normal : ℤ
  estimated_time_green_corridor : ℤ
  time_saved_minutes : ℤ
  route_priority : String
  traffic_conditions : String
deriving DecidableEq, Repr

/-- `calculate_patient_route` (`patient_initiate_ambulance_workflow.py`
lines 484-531): `normal_time = int((distance / base_speed) * 60)` (Python
`int()` truncation, which is floor on the non-negative distances that
occur); the green-corridor time is `int(normal_time * 0.55)` when the
assessment requires a corridor and `int(normal_time * 0.85)` otherwise
(modelled as exact rational products floored via `Int.fdiv`);
`time_saved = normal_time - green_corridor_time`. -/
def calculate_patient_route (distance_km : ℚ) (hour : ℕ)
    (green_corridor_required : Bool) : PatientRoute :=
  let sp := patientBaseSpeed hour
  let normal_time : ℤ := ⌊distance_km / sp.1 * 60⌋
  if green_corridor_required then
    let g := Int.fdiv (55 * normal_time) 100
    ⟨distance_km, normal_time, g, normal_time - g, "GREEN_CORRIDOR", sp.2⟩
  else
    let g := Int.fdiv (85 * normal_time) 100
    ⟨distance_km, normal_time, g, normal_time - g, "PRIORITY", sp.2⟩

/-- `optimize_eta_with_cerebras`
(`realtime_incident_ambulance_workflow.py` lines 258-300), as a function of
the severity, the normal time and the oracle outcome: `some v` when the
Cerebras reply contains an integer (the regex `\d+` match, hence a natural
number), `none` when no number is found or the call raises.  With an
oracle value the result is
`max(max(int(normal*0.5), 3), min(v, int(normal*0.9)))`; without one it is
`max(int(normal*factor), 3)` with factor 0.7 / 0.6 / 0.5 by severity band.
Float products are modelled as exact rational products floored
(`Int.fdiv`). -/
def optimize_eta_with_cerebras (severity : ℤ) (normal_time : ℤ)
    (oracle : Option ℕ) : ℤ :=
  match oracle with
  | some v =>
      let min_time := max (Int.fdiv normal_time 2) 3
      let max_time := Int.fdiv (9 * normal_time) 10
      max min_time (min (v : ℤ) max_time)
  | none =>
      let f : ℤ := if severity < 6 then 7 else if severity < 8 then 6 else 5
      max (Int.fdiv (f * normal_time) 10) 3

/-- ETA clamp asserted by the claim (spec §4.4): any externally supplied
ETA is clamped to `[0.5×baseline, 0.9×baseline]` (exact real bounds) with
an absolute floor of 3 minutes.  Follows the spec's words, for comparison
with `optimize_eta_with_cerebras`. -/
def claimedEtaClamp (baseline result : ℤ) : Prop :=
  (baseline : ℚ) / 2 ≤ (result : ℚ) ∧ (result : ℚ) ≤ 9 * (baseline : ℚ) / 10 ∧ 3 ≤ result

/-- Baseline ETA asserted by the claim (spec §4.4): distance over the
speed constant, rounded **up** to whole minutes, floor of 1 minute.
Follows the spec's words, for comparison with the route estimators. -/
def claimedBaselineEta (distance_km speed : ℚ) : ℤ :=
  max ⌈distance_km / speed * 60⌉ 1

/-! ## Realtime matcher and route builder (`calculate_route_with_cerebras`) -/

/-- `Hospital` of `realtime_incident_ambulance_workflow.py` (the fields the
matcher reads and mutates). -/
structure RTHospital where
  id : String
  trauma_level : ℤ
  available_beds : ℤ
deriving DecidableEq, Repr

/-- `RouteOptimization` (the fields the claims read). -/
structure RouteOptimization where
  accident_id : String
  distance_km : ℚ
  estimated_time_normal : ℤ
  estimated_time_green_corridor : ℤ
  time_saved_minutes : ℤ
  traffic_intersections : ℤ
deriving DecidableEq, Repr

/-- The `distance < min_distance` test of the nearest-hospital loop, with
`none` modelling the initial `min_distance = inf`. -/
def accBetter (d : ℚ) : Option (ℕ × ℚ) → Bool
  | none => true
  | some (_, m) => decide (d < m)

/-- One pass of the nearest-hospital loop of `calculate_route_with_cerebras`
(`realtime_incident_ambulance_workflow.py` lines 577-607): scan the
hospitals (paired with their geodesic distances) keeping the eligible one
with the strictly smallest distance; `acc = none` models
`min_distance = inf`, `some (i, m)` the current best index and distance. -/
def scanHospitals (keep : RTHospital → Bool) :
    List (RTHospital × ℚ) → ℕ → Option (ℕ × ℚ) → Option (ℕ × ℚ)
  | [], _, acc => acc
  | (h, d) :: rest, i, acc =>
      scanHospitals keep rest (i + 1) (if keep h && accBetter d acc then some (i, d) else acc)

/-- The severity-dependent eligibility of the first pass (lines 583-597):
critical cases (score ≥ 8) need a level-1 trauma centre with beds; all
other scores only need beds. -/
def rtKeepFirst (pcs : ℤ) (h : RTHospital) : Bool :=
  if 8 ≤ pcs then decide (h.trauma_level = 1 ∧ 0 < h.available_beds)
  else decide (0 < h.available_beds)

/-- Hospital selection of `calculate_route_with_cerebras` (lines 574-607):
the severity-restricted pass, then — only when it found nothing — the
"nearest available" fallback pass over any hospital with beds. -/
def selectHospitalIdx (pcs : ℤ) (hds : List (RTHospital × ℚ)) : Option (ℕ × ℚ) :=
  match scanHospitals (rtKeepFirst pcs) hds 0 none with
  | some r => some r
  | none => scanHospitals (fun h => decide (0 < h.available_beds)) hds 0 none

/-- Speed constant of the realtime route build (lines 610-614): 25 km/h,
35 km/h when the critical score is at least 7. -/
def rtBaseSpeed (pcs : ℤ) : ℚ := if 7 ≤ pcs then 35 else 25

/-- The route record built for a selected hospital (lines 609-643):
`normal_time = max(int((distance/speed)*60), 5)`, the green-corridor time
from the ETA oracle wrapper, `time_saved = max(normal - green, 1)`,
`traffic_intersections = max(int(distance*1.5), 2)`. -/
def buildRouteRT (accident_id : String) (pcs : ℤ) (d : ℚ) (oracle : Option ℕ) :
    RouteOptimization :=
  let normal_time : ℤ := max ⌊d / rtBaseSpeed pcs * 60⌋ 5
  let green := optimize_eta_with_cerebras pcs normal_time oracle
  ⟨accident_id, d, normal_time, green, max (normal_time - green) 1, max ⌊d * 3 / 2⌋ 2⟩

/-- One assessment of the realtime pipeline: its critical score, the
geodesic distances to the hospitals (external input, one per hospital) and
the ETA-oracle outcome for its route. -/
structure RTJob where
  accident_id : String
  pcs : ℤ
  ds : List ℚ
  oracle : Option ℕ

/-- One iteration of the assessment loop of `calculate_route_with_cerebras`:
select a hospital; when one is found build its route and decrement the
selected hospital's bed counter by one (`best_hospital.available_beds -= 1`,
line 628), otherwise leave the ledger unchanged and emit no route. -/
def decrementBeds : List RTHospital → ℕ → List RTHospital
  | [], _ => []
  | h :: t, 0 => { h with available_beds := h.available_beds - 1 } :: t
  | h :: t, Nat.succ n => h :: decrementBeds t n

def processAssessment (j : RTJob) (hs : List RTHospital) :
    List RTHospital × Option RouteOptimization :=
  match selectHospitalIdx j.pcs (hs.zip j.ds) with
  | some (i, d) => (decrementBeds hs i, some (buildRouteRT j.accident_id j.pcs d j.oracle))
  | none => (hs, none)

/-- `calculate_route_with_cerebras`
(`realtime_incident_ambulance_workflow.py` lines 510-646): fold the
assessment loop over the shared hospital list, accumulating routes; the
final hospital list is the mutated capacity ledger. -/
def calculate_route_with_cerebras (jobs : List RTJob) (hs : List RTHospital) :
    List RTHospital × List RouteOptimization :=
  jobs.foldl (fun acc j =>
    let r := processAssessment j acc.1
    (r.1, acc.2 ++ r.2.toList)) (hs, [])

/-! ## Corridor activators -/

/-- `PatientGreenCorridor` (the fields the claims read). -/
structure PatientGreenCorridor where
  affected_signals : ℤ
  estimated_time_saved : ℤ
  status : String
deriving DecidableEq, Repr

/-- `activate_patient_green_corridor`
(`patient_initiate_ambulance_workflow.py` lines 533-559): returns `None`
when the assessment does not require a corridor, otherwise an `ACTIVATED`
corridor with `affected_signals = int(distance * 1.8)` (modelled as the
exact rational product floored) and the route's saved time.  The route's
`time_saved_minutes` is never consulted. -/
def activate_patient_green_corridor (route : PatientRoute)
    (green_corridor_required : Bool) : Option PatientGreenCorridor :=
  if green_corridor_required then
    some ⟨⌊route.distance_km * 9 / 5⌋, route.time_saved_minutes, "ACTIVATED"⟩
  else none

/-- `GreenCorridorActivation` (the fields the claims read). -/
structure GreenCorridorActivation where
  accident_id : String
  total_intersections : ℤ
  estimated_time_saved : ℤ
  status : String
deriving DecidableEq, Repr

/-- The activation record built for one route by
`activate_green_corridor_sumo` (`realtime_incident_ambulance_workflow.py`
lines 658-682): the intersection list has `min(traffic_intersections, 10)`
entries, status `ACTIVATED`. -/
def mkSumoActivation (r : RouteOptimization) : GreenCorridorActivation :=
  ⟨r.accident_id, min r.traffic_intersections 10, r.time_saved_minutes, "ACTIVATED"⟩

/-- `activate_green_corridor_sumo`
(`realtime_incident_ambulance_workflow.py` lines 648-685): an activation is
created for a route iff its `time_saved_minutes ≥ 5`; the assessment's
corridor flag is never consulted. -/
def activate_green_corridor_sumo (routes : List RouteOptimization) :
    List GreenCorridorActivation :=
  routes.filterMap (fun r =>
    if 5 ≤ r.time_saved_minutes then some (mkSumoActivation r) else none)

/-- Corridor-activation rule asserted by the claim (spec §4.5): fire iff
(corridor-required OR time-saved ≥ the configured minimum) AND
time-saved > 0.  Follows the spec's words, for comparison with the
activators. -/
def claimedActivationRule (corridor_required : Bool) (time_saved minimum : ℤ) : Prop :=
  (corridor_required = true ∨ minimum ≤ time_saved) ∧ 0 < time_saved

/-! ## Incident intake (`collect_family_emergency_details`) -/

/-- The canonical record built by intake (the fields the claims read). -/
structure FamilyEmergencyRequest where
  caller_name : String
  caller_phone : String
  patient_name : String
  patient_age : ℤ
  emergency_location : String
  detailed_address : String
  gps_lat : ℚ
  gps_lon : ℚ
  emergency_type : EmergencyType
  criticality_level : CriticalityLevel
  symptoms_description : String
  status : String
deriving DecidableEq, Repr

/-- The three `base_coords` of `collect_family_emergency_details`
(`patient_initiate_ambulance_workflow.py` lines 157-161): Delhi central,
Gurgaon, Noida; `random.choice` picks one, modelled as a `Fin 3` input. -/
def base_coords : Fin 3 → ℚ × ℚ
  | 0 => (28.6139, 77.2090)
  | 1 => (28.4595, 77.0266)
  | 2 => (28.5355, 77.3910)

/-- The emergency-type menu (lines 184-188): choices 1-6 map to cardiac,
stroke, accident, breathing, unconscious, other; the input loop repeats
until the choice is in 1..6, modelled as a `Fin 6` input. -/
def emergency_types_menu : Fin 6 → EmergencyType
  | 0 => .cardiac
  | 1 => .stroke
  | 2 => .accident
  | 3 => .breathing
  | 4 => .unconscious
  | 5 => .other

/-- `collect_family_emergency_details`
(`patient_initiate_ambulance_workflow.py` lines 129-254), as a function of
the prompt answers and the random draws (`random.choice` base region and
the two `random.uniform(-0.05, 0.05)` jitters): builds the request
unconditionally — no answer is ever rejected.  `dashboard_collect_family_emergency`
(`patient_initiate_ambulance_dashboard.py` lines 58-119) computes the same
record from the same inputs. -/
def collect_family_emergency_details (caller_name caller_phone patient_name : String)
    (patient_age : ℤ) (emergency_location detailed_address : String)
    (base : Fin 3) (dLat dLon : ℚ) (choice : Fin 6)
    (is_conscious is_breathing any_bleeding : Bool) (symptoms : String) :
    FamilyEmergencyRequest :=
  let coords := base_coords base
  let etype := emergency_types_menu choice
  let score := intake_criticality_score is_conscious is_breathing any_bleeding etype patient_age
  { caller_name := caller_name
    caller_phone := caller_phone
    patient_name := patient_name
    patient_age := patient_age
    emergency_location := emergency_location
    detailed_address := detailed_address
    gps_lat := coords.1 + dLat
    gps_lon := coords.2 + dLon
    emergency_type := etype
    criticality_level := intake_criticality_level score
    symptoms_description := symptoms
    status := "RECEIVED" }

/-! ## Severity-scorer lemmas -/

lemma emergency_scores_pos (e : EmergencyType) : 1 ≤ emergency_scores e := by
  cases e <;> simp [emergency_scores]

lemma agePoints_nonneg (age : ℤ) : 0 ≤ agePoints age := by
  unfold agePoints; split_ifs <;> omega

lemma pcs_raw_nonneg (age : ℤ) (c b bl : Bool) (e : EmergencyType) :
    0 ≤ pcs_raw age c b bl e := by
  have h1 := emergency_scores_pos e
  have h2 := agePoints_nonneg age
  unfold pcs_raw
  cases c <;> cases b <;> cases bl <;> omega

lemma assess_score_eq (age : ℤ) (c b bl : Bool) (e : EmergencyType) :
    (assess_patient_with_ai age c b bl e).patient_critical_score
      = min (pcs_raw age c b bl e) 10 := by
  simp only [assess_patient_with_ai]
  split_ifs <;> rfl

lemma assess_sev_crit (age : ℤ) (c b bl : Bool) (e : EmergencyType) :
    (assess_patient_with_ai age c b bl e).severity_level = .critical
      ↔ 8 ≤ min (pcs_raw age c b bl e) 10 := by
  simp only [assess_patient_with_ai]
  split_ifs <;> simp_all

lemma assess_sev_serious (age : ℤ) (c b bl : Bool) (e : EmergencyType) :
    (assess_patient_with_ai age c b bl e).severity_level = .serious
      ↔ 6 ≤ min (pcs_raw age c b bl e) 10 ∧ min (pcs_raw age c b bl e) 10 < 8 := by
  simp only [assess_patient_with_ai]
  split_ifs <;> simp_all <;> omega

lemma assess_sev_moderate (age : ℤ) (c b bl : Bool) (e : EmergencyType) :
    (assess_patient_with_ai age c b bl e).severity_level = .moderate
      ↔ 4 ≤ min (pcs_raw age c b bl e) 10 ∧ min (pcs_raw age c b bl e) 10 < 6 := by
  simp only [assess_patient_with_ai]
  split_ifs <;> simp_all <;> omega

lemma assess_sev_minor (age : ℤ) (c b bl : Bool) (e : EmergencyType) :
    (assess_patient_with_ai age c b bl e).severity_level = .minor
      ↔ min (pcs_raw age c b bl e) 10 < 4 := by
  simp only [assess_patient_with_ai]
  split_ifs <;> simp_all <;> omega

lemma assess_corridor (age : ℤ) (c b bl : Bool) (e : EmergencyType) :
    (assess_patient_with_ai age c b bl e).green_corridor_required = true
      ↔ 6 ≤ min (pcs_raw age c b bl e) 10 := by
  simp only [assess_patient_with_ai]
  split_ifs <;> simp_all <;> omega

lemma tierRank_mono_of_score (age : ℤ) (c b bl : Bool) (e : EmergencyType)
    (age' : ℤ) (c' b' bl' : Bool) (e' : EmergencyType)
    (h : (assess_patient_with_ai age c b bl e).patient_critical_score
        ≤ (assess_patient_with_ai age' c' b' bl' e').patient_critical_score) :
    tierRank (assess_patient_with_ai age c b bl e).severity_level
      ≤ tierRank (assess_patient_with_ai age' c' b' bl' e').severity_level := by
  rw [assess_score_eq] at h
  conv at h => rw [assess_score_eq]
  simp only [assess_patient_with_ai]
  split_ifs <;> simp [tierRank] <;> omega

/-- C2: the scorer adds +4 for unconsciousness, +5 for non-breathing, +2
for bleeding and the category-table weight, clamps to [0,10], and the
tiers follow the 8/6/4 thresholds monotonically — but the age bands are an
`elif` chain (exactly one of age<1 → +3, age<5 → +2, age>75 → +2,
age>65 → +1 applies), not a sum of all applicable age weights: at age 80
the code adds 2, while the claim's summed bands (+1 for age>65, +2 for
age>75) would add 3, giving a different total. -/
theorem scorer_claim_counterexample :
    (assess_patient_with_ai 80 true true false .other).patient_critical_score ≠
      claimedSeverityScore 80 true true false .other := by
  have h1 : (assess_patient_with_ai 80 true true false .other).patient_critical_score = 3 := rfl
  have h2 : claimedSeverityScore 80 true true false .other = 4 := rfl
  rw [h1, h2]; omega

/-- C2 (amended): the severity score is the sum of +4 for unconsciousness,
+5 for non-breathing, +2 for bleeding, the category-table weight and
exactly one age-band weight (the first applicable of age<1 → +3,
age<5 → +2, age>75 → +2, age>65 → +1), clamped to [0,10]; the tier is
critical iff score ≥ 8, serious iff 6 ≤ score < 8, moderate iff
4 ≤ score < 6, else minor, and tiers are monotonic in the score. -/
theorem scorer_weights_amended (age : ℤ) (c b bl : Bool) (e : EmergencyType) :
    ((assess_patient_with_ai age c b bl e).patient_critical_score
        = min (agePoints age + (if c then 0 else 4) + (if b then 0 else 5)
            + (if bl then 2 else 0) + emergency_scores e) 10)
    ∧ 0 ≤ (assess_patient_with_ai age c b bl e).patient_critical_score
    ∧ (assess_patient_with_ai age c b bl e).patient_critical_score ≤ 10
    ∧ ((assess_patient_with_ai age c b bl e).severity_level = .critical
        ↔ 8 ≤ (assess_patient_with_ai age c b bl e).patient_critical_score)
    ∧ ((assess_patient_with_ai age c b bl e).severity_level = .serious
        ↔ 6 ≤ (assess_patient_with_ai age c b bl e).patient_critical_score
          ∧ (assess_patient_with_ai age c b bl e).patient_critical_score < 8)
    ∧ ((assess_patient_with_ai age c b bl e).severity_level = .moderate
        ↔ 4 ≤ (assess_patient_with_ai age c b bl e).patient_critical_score
          ∧ (assess_patient_with_ai age c b bl e).patient_critical_score < 6)
    ∧ ((assess_patient_with_ai age c b bl e).severity_level = .minor
        ↔ (assess_patient_with_ai age c b bl e).patient_critical_score < 4)
    ∧ (∀ (age' : ℤ) (c' b' bl' : Bool) (e' : EmergencyType),
        (assess_patient_with_ai age c b bl e).patient_critical_score
            ≤ (assess_patient_with_ai age' c' b' bl' e').patient_critical_score →
          tierRank (assess_patient_with_ai age c b bl e).severity_level
            ≤ tierRank (assess_patient_with_ai age' c' b' bl' e').severity_level) := by
  have hs := assess_score_eq age c b bl e
  have hnn := pcs_raw_nonneg age c b bl e
  refine ⟨hs, ?_, ?_, ?_, ?_, ?_, ?_, ?_⟩
  · rw [hs]; omega
  · rw [hs]; omega
  · rw [hs] at *; exact assess_sev_crit age c b bl e
  · rw [hs] at *; exact assess_sev_serious age c b bl e
  · rw [hs] at *; exact assess_sev_moderate age c b bl e
  · rw [hs] at *; exact assess_sev_minor age c b bl e
  · intro age' c' b' bl' e' h
    exact tierRank_mono_of_score age c b bl e age' c' b' bl' e' h

/-- Witness for `scorer_weights_amended`: its monotonicity conjunct applied
to concrete incidents (score 3 at age 80/other vs score 10 at age
70/cardiac/unconscious/non-breathing). -/
theorem scorer_weights_amended_witness :
    tierRank (assess_patient_with_ai 80 true true false .other).severity_level
      ≤ tierRank (assess_patient_with_ai 70 false false false .cardiac).severity_level := by
  have h := (scorer_weights_amended 80 true true false .other).2.2.2.2.2.2.2
  exact h 70 false false false .cardiac (by
    have h1 : (assess_patient_with_ai 80 true true false .other).patient_critical_score = 3 := rfl
    have h2 : (assess_patient_with_ai 70 false false false .cardiac).patient_critical_score = 10 := rfl
    rw [h1, h2]; omega)

/-- C7: the assessment requires a green corridor iff the tier is serious or
critical, equivalently iff the score is at least 6; and the scenario
(unconscious, non-breathing, cardiac, age 70) scores 10 ≥ 8, tier
critical, corridor required. -/
theorem corridor_iff_serious_or_critical (age : ℤ) (c b bl : Bool) (e : EmergencyType) :
    ((assess_patient_with_ai age c b bl e).green_corridor_required = true
      ↔ 6 ≤ (assess_patient_with_ai age c b bl e).patient_critical_score)
    ∧ ((assess_patient_with_ai age c b bl e).green_corridor_required = true
      ↔ (assess_patient_with_ai age c b bl e).severity_level = .serious
        ∨ (assess_patient_with_ai age c b bl e).severity_level = .critical)
    ∧ (assess_patient_with_ai 70 false false false .cardiac).patient_critical_score = 10
    ∧ 8 ≤ (assess_patient_with_ai 70 false false false .cardiac).patient_critical_score
    ∧ (assess_patient_with_ai 70 false false false .cardiac).severity_level = .critical
    ∧ (assess_patient_with_ai 70 false false false .cardiac).green_corridor_required = true := by
  have hs := assess_score_eq age c b bl e
  refine ⟨?_, ?_, rfl, ?_, rfl, rfl⟩
  · rw [hs]; exact assess_corridor age c b bl e
  · rw [assess_corridor age c b bl e, assess_sev_serious age c b bl e,
      assess_sev_crit age c b bl e]
    omega
  · have h10 : (assess_patient_with_ai 70 false false false .cardiac).patient_critical_score
        = 10 := rfl
    omega

/-- Witness for `corridor_iff_serious_or_critical` at a concrete incident. -/
theorem corridor_iff_witness :
    (assess_patient_with_ai 70 false false false .cardiac).green_corridor_required = true :=
  (corridor_iff_serious_or_critical 70 false false false .cardiac).2.2.2.2.2

/-! ## Intake scorer vs full scorer (C10) -/

lemma intake_cat_le (e : EmergencyType) :
    (if e = EmergencyType.cardiac ∨ e = EmergencyType.stroke then (3:ℤ) else 0) + 1
      ≤ emergency_scores e := by
  cases e <;> simp [emergency_scores]

lemma intake_age_le (age : ℤ) :
    (if 65 < age then (1:ℤ) else 0) + (if age < 5 then 2 else 0) ≤ agePoints age := by
  unfold agePoints; split_ifs <;> omega

lemma intake_lt_raw (c b bl : Bool) (e : EmergencyType) (age : ℤ) :
    intake_criticality_score c b bl e age + 1 ≤ pcs_raw age c b bl e := by
  have h1 := intake_cat_le e
  have h2 := intake_age_le age
  unfold intake_criticality_score pcs_raw
  omega

lemma intake_level_crit (s : ℤ) :
    intake_criticality_level s = .critical ↔ 8 ≤ s := by
  unfold intake_criticality_level; split_ifs <;> simp_all

lemma intake_level_ser_or_crit (s : ℤ) :
    (intake_criticality_level s = .serious ∨ intake_criticality_level s = .critical)
      ↔ 5 ≤ s := by
  unfold intake_criticality_level; split_ifs <;> simp_all <;> omega

/-- C10: the two scoring implementations are not equivalent.  For a
conscious, breathing, non-bleeding cardiac patient aged 80 the inline
intake scorer gives 3 (category) + 1 (age>65) = 4, tier moderate, while
the full scorer gives 4 (category table) + 2 (age>75 band) = 6, tier
serious. -/
theorem intake_scorer_counterexample :
    intake_criticality_level (intake_criticality_score true true false .cardiac 80)
        = .moderate
    ∧ (assess_patient_with_ai 80 true true false .cardiac).severity_level = .serious
    ∧ intake_criticality_level (intake_criticality_score true true false .cardiac 80)
        ≠ (assess_patient_with_ai 80 true true false .cardiac).severity_level := by
  have e1 : intake_criticality_level (intake_criticality_score true true false .cardiac 80)
      = .moderate := rfl
  have e2 : (assess_patient_with_ai 80 true true false .cardiac).severity_level
      = .serious := rfl
  refine ⟨e1, e2, ?_⟩
  rw [e1, e2]; simp

/-- C10 (amended): the inline intake scorer and the full scorer are not
equivalent as functions of the intake answers (they differ e.g. at a
cardiac patient aged 80).  What does hold: the full scorer's raw score
always exceeds the intake score by at least 1 (its category table gives
every type at least one more point and its age bands dominate the intake
bands), so an intake-critical request is always scorer-critical and an
intake-serious-or-critical request is always scorer-serious-or-critical. -/
theorem intake_scorer_relation_amended (c b bl : Bool) (e : EmergencyType) (age : ℤ) :
    intake_criticality_score c b bl e age + 1 ≤ pcs_raw age c b bl e
    ∧ (intake_criticality_level (intake_criticality_score c b bl e age) = .critical →
        (assess_patient_with_ai age c b bl e).severity_level = .critical)
    ∧ ((intake_criticality_level (intake_criticality_score c b bl e age) = .serious
        ∨ intake_criticality_level (intake_criticality_score c b bl e age) = .critical) →
        ((assess_patient_with_ai age c b bl e).severity_level = .serious
          ∨ (assess_patient_with_ai age c b bl e).severity_level = .critical)) := by
  have hlt := intake_lt_raw c b bl e age
  refine ⟨hlt, ?_, ?_⟩
  · intro h
    rw [intake_level_crit] at h
    rw [assess_sev_crit]
    omega
  · intro h
    rw [intake_level_ser_or_crit] at h
    rw [assess_sev_serious, assess_sev_crit]
    omega

/-- Witness for `intake_scorer_relation_amended`: an unconscious,
non-breathing patient is intake-critical, and the theorem then forces the
full scorer to agree. -/
theorem intake_scorer_relation_witness :
    (assess_patient_with_ai 30 false false false .other).severity_level = .critical :=
  (intake_scorer_relation_amended false false false .other 30).2.1 rfl

/-! ## Route/ETA estimator theorems (C3, C8) -/

lemma opt_some_eq (sev n : ℤ) (v : ℕ) :
    optimize_eta_with_cerebras sev n (some v)
      = max (max (Int.fdiv n 2) 3) (min (v : ℤ) (Int.fdiv (9 * n) 10)) := rfl

lemma opt_none_eq (sev n : ℤ) :
    optimize_eta_with_cerebras sev n none
      = max (Int.fdiv ((if sev < 6 then (7:ℤ) else if sev < 8 then 6 else 5) * n) 10) 3 := rfl

lemma opt_ge_3 (sev n : ℤ) (oracle : Option ℕ) :
    3 ≤ optimize_eta_with_cerebras sev n oracle := by
  cases oracle with
  | some v => rw [opt_some_eq]; omega
  | none => rw [opt_none_eq]; omega

lemma opt_lt_n (sev n : ℤ) (oracle : Option ℕ) (hn : 4 ≤ n) :
    optimize_eta_with_cerebras sev n oracle < n := by
  cases oracle with
  | some v =>
      rw [opt_some_eq, Int.fdiv_eq_ediv _ (by norm_num), Int.fdiv_eq_ediv _ (by norm_num)]
      omega
  | none =>
      rw [opt_none_eq]
      split_ifs <;> rw [Int.fdiv_eq_ediv _ (by norm_num)] <;> omega

lemma patientBaseSpeed_pos (hour : ℕ) : 0 < (patientBaseSpeed hour).1 := by
  unfold patientBaseSpeed; split_ifs <;> norm_num

lemma patient_normal_nonneg (d : ℚ) (hour : ℕ) (hd : 0 ≤ d) :
    0 ≤ ⌊d / (patientBaseSpeed hour).1 * 60⌋ := by
  have hs := patientBaseSpeed_pos hour
  positivity

/-- C3: the clamp applied to an oracle-supplied ETA is not the claimed
range `[0.5×baseline, 0.9×baseline]`: its lower bound is
`max(int(0.5×baseline), 3)`, which truncates below `0.5×baseline`.  At
baseline 7 with oracle value 3 the estimator returns 3, below
`0.5×7 = 3.5`. -/
theorem eta_clamp_counterexample :
    optimize_eta_with_cerebras 8 7 (some 3) = 3
    ∧ ¬ claimedEtaClamp 7 (optimize_eta_with_cerebras 8 7 (some 3)) := by
  have e1 : optimize_eta_with_cerebras 8 7 (some 3) = 3 := rfl
  refine ⟨e1, ?_⟩
  rw [e1]
  unfold claimedEtaClamp
  intro h
  have h1 := h.1
  norm_num at h1

/-- C3 (amended): every route has time-saved ≥ 0 and priority ETA ≤
baseline ETA (strictly less for the realtime estimator, whose baseline has
a floor of 5 minutes); and an oracle-supplied ETA is clamped to
`[max(⌊0.5×baseline⌋, 3), ⌊0.9×baseline⌋]` — the floored bounds and the
3-minute floor of the code, not the exact real range of the claim. -/
theorem eta_bounds_amended (sev n : ℤ) (v : ℕ) (hn : 4 ≤ n)
    (d : ℚ) (hour : ℕ) (flag : Bool) (hd : 0 ≤ d)
    (aid : String) (pcs : ℤ) (d2 : ℚ) (orc : Option ℕ) :
    (3 ≤ optimize_eta_with_cerebras sev n (some v)
      ∧ Int.fdiv n 2 ≤ optimize_eta_with_cerebras sev n (some v)
      ∧ optimize_eta_with_cerebras sev n (some v) ≤ Int.fdiv (9 * n) 10
      ∧ optimize_eta_with_cerebras sev n (some v) < n)
    ∧ (0 ≤ (calculate_patient_route d hour flag).time_saved_minutes
      ∧ (calculate_patient_route d hour flag).estimated_time_green_corridor
          ≤ (calculate_patient_route d hour flag).estimated_time_normal)
    ∧ (1 ≤ (buildRouteRT aid pcs d2 orc).time_saved_minutes
      ∧ (buildRouteRT aid pcs d2 orc).estimated_time_green_corridor
          < (buildRouteRT aid pcs d2 orc).estimated_time_normal) := by
  refine ⟨⟨opt_ge_3 sev n (some v), ?_, ?_, opt_lt_n sev n (some v) hn⟩, ?_, ?_⟩
  · rw [opt_some_eq]
    omega
  · rw [opt_some_eq, Int.fdiv_eq_ediv _ (by norm_num), Int.fdiv_eq_ediv _ (by norm_num)]
    omega
  · have hnn := patient_normal_nonneg d hour hd
    simp only [calculate_patient_route]
    split_ifs <;>
      simp only [] <;>
      constructor <;>
      rw [Int.fdiv_eq_ediv _ (by norm_num)] <;>
      omega
  · constructor
    · simp only [buildRouteRT]
      omega
    · simp only [buildRouteRT]
      exact opt_lt_n pcs _ orc (by omega)

/-- Witness for `eta_bounds_amended` at baseline 7, oracle value 3,
distance 1 km, hour 23. -/
theorem eta_bounds_amended_witness :
    optimize_eta_with_cerebras 8 7 (some 3) < 7
    ∧ 0 ≤ (calculate_patient_route 1 23 false).time_saved_minutes := by
  have h := eta_bounds_amended 8 7 3 (by decide) 1 23 false zero_le_one
    "ACC_1" 9 2 (some 4)
  exact ⟨h.1.2.2.2, h.2.1.1⟩

/-- C8: the baseline ETA is `int((distance/speed)*60)` — truncation toward
zero, not rounding up, and with no 1-minute floor.  At distance 1 km, hour
23 (light traffic, 35 km/h) the code yields ⌊60/35⌋ = 1 while the claimed
ceiling-with-floor formula yields 2. -/
theorem baseline_eta_counterexample :
    (calculate_patient_route 1 23 false).estimated_time_normal = 1
    ∧ claimedBaselineEta 1 35 = 2
    ∧ (calculate_patient_route 1 23 false).estimated_time_normal
        ≠ claimedBaselineEta 1 35 := by
  have e1 : (calculate_patient_route 1 23 false).estimated_time_normal = ⌊(1 : ℚ) / 35 * 60⌋ := by
    simp [calculate_patient_route, patientBaseSpeed]
  have e1' : (⌊(1 : ℚ) / 35 * 60⌋ : ℤ) = 1 := by
    rw [Int.floor_eq_iff] <;> norm_num
  have e2 : claimedBaselineEta 1 35 = 2 := by
    unfold claimedBaselineEta
    have hc : (⌈(1 : ℚ) / 35 * 60⌉ : ℤ) = 2 := by
      rw [Int.ceil_eq_iff] <;> norm_num
    rw [hc]; rfl
  refine ⟨e1.trans e1', e2, ?_⟩
  rw [e1.trans e1', e2]
  omega

/-- C8 (amended): the patient estimator's baseline ETA is
`⌊distance / time-of-day-speed × 60⌋` with no minimum (it is 0 at distance
0); the realtime estimator's baseline is `max(⌊distance / speed × 60⌋, 5)`
with a 5-minute floor and a severity-dependent speed (35 km/h when the
critical score is ≥ 7, else 25 km/h), not a time-of-day speed. -/
theorem baseline_eta_amended (d : ℚ) (hour : ℕ) (flag : Bool) (hd : 0 ≤ d)
    (aid : String) (pcs : ℤ) (d2 : ℚ) (orc : Option ℕ) :
    (calculate_patient_route d hour flag).estimated_time_normal
        = ⌊d / (patientBaseSpeed hour).1 * 60⌋
    ∧ 0 ≤ (calculate_patient_route d hour flag).estimated_time_normal
    ∧ (calculate_patient_route 0 23 false).estimated_time_normal = 0
    ∧ (buildRouteRT aid pcs d2 orc).estimated_time_normal
        = max ⌊d2 / rtBaseSpeed pcs * 60⌋ 5
    ∧ 5 ≤ (buildRouteRT aid pcs d2 orc).estimated_time_normal := by
  have hnn := patient_normal_nonneg d hour hd
  have e0 : (calculate_patient_route 0 23 false).estimated_time_normal = ⌊(0 : ℚ) / 35 * 60⌋ := by
    simp [calculate_patient_route, patientBaseSpeed]
  refine ⟨?_, ?_, ?_, rfl, ?_⟩
  · simp only [calculate_patient_route]
    split_ifs <;> rfl
  · have he : (calculate_patient_route d hour flag).estimated_time_normal
        = ⌊d / (patientBaseSpeed hour).1 * 60⌋ := by
      simp only [calculate_patient_route]
      split_ifs <;> rfl
    rw [he]; exact hnn
  · rw [e0]; norm_num
  · simp only [buildRouteRT]
    omega

/-- Witness for `baseline_eta_amended` at distance 1 km, hour 23. -/
theorem baseline_eta_amended_witness :
    5 ≤ (buildRouteRT "ACC_1" 9 2 (some 4)).estimated_time_normal :=
  (baseline_eta_amended 1 23 false zero_le_one "ACC_1" 9 2 (some 4)).2.2.2.2

/-! ## Corridor activator theorems (C4) -/

lemma patient_route_20_23_false :
    calculate_patient_route 20 23 false =
      { distance_km := 20
        estimated_time_normal := ⌊(20:ℚ) / 35 * 60⌋
        estimated_time_green_corridor := Int.fdiv (85 * ⌊(20:ℚ) / 35 * 60⌋) 100
        time_saved_minutes := ⌊(20:ℚ) / 35 * 60⌋ - Int.fdiv (85 * ⌊(20:ℚ) / 35 * 60⌋) 100
        route_priority := "PRIORITY"
        traffic_conditions := "LIGHT" } := rfl

lemma floor_20_35_60 : (⌊(20:ℚ) / 35 * 60⌋ : ℤ) = 34 := by
  rw [Int.floor_eq_iff] <;> norm_num

lemma patient_route_ts_6 : (calculate_patient_route 20 23 false).time_saved_minutes = 6 := by
  rw [patient_route_20_23_false]
  show ⌊(20:ℚ) / 35 * 60⌋ - Int.fdiv (85 * ⌊(20:ℚ) / 35 * 60⌋) 100 = 6
  rw [floor_20_35_60]
  rfl

/-- C4: the claimed rule — activate iff (corridor-required OR time-saved ≥
minimum) AND time-saved > 0 — fails on the code.  A route with
time-saved = 6 (≥ the configured minimum 5, and > 0) whose assessment does
not require a corridor satisfies the claimed condition, yet
`activate_patient_green_corridor` creates no activation: it consults only
the corridor-required flag. -/
theorem corridor_rule_counterexample :
    claimedActivationRule false (calculate_patient_route 20 23 false).time_saved_minutes 5
    ∧ activate_patient_green_corridor (calculate_patient_route 20 23 false) false = none := by
  constructor
  · rw [patient_route_ts_6]
    exact ⟨Or.inr (by omega), by omega⟩
  · rfl

/-- C4 (amended): the two activators each use only half of the claimed
condition.  The patient activator creates an activation iff the
assessment's corridor-required flag is set (time-saved is never consulted);
the realtime activator creates an activation for a route iff its
time-saved is at least the configured minimum of 5 minutes (no corridor
flag is consulted).  Routes failing the respective condition get no
activation. -/
theorem corridor_rule_amended (r : PatientRoute) (flag : Bool)
    (rs : List RouteOptimization) (a : GreenCorridorActivation) :
    ((activate_patient_green_corridor r flag).isSome ↔ flag = true)
    ∧ (a ∈ activate_green_corridor_sumo rs ↔
        ∃ r2 ∈ rs, 5 ≤ r2.time_saved_minutes ∧ mkSumoActivation r2 = a) := by
  constructor
  · unfold activate_patient_green_corridor
    cases flag <;> simp
  · unfold activate_green_corridor_sumo
    rw [List.mem_filterMap]
    constructor
    · rintro ⟨r2, hr2, hf⟩
      by_cases h5 : 5 ≤ r2.time_saved_minutes
      · rw [if_pos h5] at hf
        exact ⟨r2, hr2, h5, Option.some_injective _ hf⟩
      · rw [if_neg h5] at hf
        exact absurd hf (by simp)
    · rintro ⟨r2, hr2, h5, heq⟩
      exact ⟨r2, hr2, by rw [if_pos h5, heq]⟩

/-- Witness for `corridor_rule_amended`: with the corridor flag set the
patient activator fires. -/
theorem corridor_rule_amended_witness :
    (activate_patient_green_corridor (calculate_patient_route 20 23 false) true).isSome :=
  (corridor_rule_amended (calculate_patient_route 20 23 false) true []
    (mkSumoActivation ⟨"ACC", 1, 5, 3, 2, 2⟩)).1.mpr rfl

/-! ## Patient facility matcher theorems (C5, C6) -/

/-- C5 (code bug): `hospital_priority` assigns rank 1 to a specialty
match, rank 2 to a general trauma/emergency facility and rank 0 — the
best rank — to a facility matching nothing, inverting the spec's
0 (match) / 1 (general) / 2 (otherwise).  For a cardiac incident, a
cardiology hospital 5 km away loses to a dermatology-only hospital 10 km
away: the sort puts the non-matching hospital first and the matcher
selects it. -/
theorem specialty_rank_inverted :
    (hospital_priority .cardiac ⟨"A", 3, 2, 1, 5, "NORMAL", ["cardiology"]⟩).1 = 1
    ∧ (hospital_priority .cardiac ⟨"B", 3, 2, 1, 10, "NORMAL", ["dermatology"]⟩).1 = 0
    ∧ claimedSpecialtyRank .cardiac ⟨"A", 3, 2, 1, 5, "NORMAL", ["cardiology"]⟩ = 0
    ∧ claimedSpecialtyRank .cardiac ⟨"B", 3, 2, 1, 10, "NORMAL", ["dermatology"]⟩ = 2
    ∧ sortHospitals .cardiac
        [⟨"A", 3, 2, 1, 5, "NORMAL", ["cardiology"]⟩,
         ⟨"B", 3, 2, 1, 10, "NORMAL", ["dermatology"]⟩]
      = [⟨"B", 3, 2, 1, 10, "NORMAL", ["dermatology"]⟩,
         ⟨"A", 3, 2, 1, 5, "NORMAL", ["cardiology"]⟩] :=
  ⟨rfl, rfl, rfl, rfl, rfl⟩

lemma override_cond (sev : CriticalityLevel) (g : GenAvail) :
    (0 < (applyCriticalOverride sev g).beds ∨ sev = .critical)
      ↔ (0 < g.beds ∨ sev = .critical) := by
  unfold applyCriticalOverride
  split_ifs with hc
  · simp [hc.1]
  · rfl

lemma mem_check_iff (etype : EmergencyType) (sev : CriticalityLevel)
    (hs : List (HospitalStatic × ℚ × GenAvail)) (h : RealTimeHospital) :
    h ∈ check_hospital_bed_availability etype sev hs ↔
      ∃ p ∈ hs, (0 < p.2.2.beds ∨ sev = .critical)
        ∧ h = buildHospital p.1 p.2.1 (applyCriticalOverride sev p.2.2) := by
  unfold check_hospital_bed_availability sortHospitals
  rw [List.Perm.mem_iff (List.perm_insertionSort _ _), List.mem_filter, List.mem_map]
  constructor
  · rintro ⟨⟨p, hp, rfl⟩, hcond⟩
    refine ⟨p, hp, ?_, rfl⟩
    rw [← override_cond sev p.2.2]
    simpa [buildHospital] using hcond
  · rintro ⟨p, hp, hcond, rfl⟩
    refine ⟨⟨p, hp, rfl⟩, ?_⟩
    rw [← override_cond sev p.2.2] at hcond
    simpa [buildHospital] using hcond

/-- C6: the critical override is not capped at one per facility per
scoring window — the code regenerates availability and re-applies the
override on every call, keeping no state.  With facility F (2 km, 0
generated beds) and fallback G (8 km, 5 beds), a critical incident gets F
force-allocated 1 bed and selected; a second critical incident with the
same zero-bed draw again selects F with a fresh override instead of
failing over to G. -/
theorem override_cap_counterexample :
    ((selectPatientHospital .accident .critical
        [(⟨"F", 1, ["trauma"]⟩, (2:ℚ), ⟨0, 0, "HIGH"⟩),
         (⟨"G", 1, ["trauma"]⟩, (8:ℚ), ⟨5, 3, "HIGH"⟩)]).map (fun h => h.id) = some "F")
    ∧ ((selectPatientHospital .accident .critical
        [(⟨"F", 1, ["trauma"]⟩, (2:ℚ), ⟨0, 0, "HIGH"⟩),
         (⟨"G", 1, ["trauma"]⟩, (8:ℚ), ⟨5, 3, "HIGH"⟩)]).map
          (fun h => h.available_beds) = some 1)
    ∧ ((selectPatientHospital .accident .critical
        [(⟨"F", 1, ["trauma"]⟩, (2:ℚ), ⟨0, 0, "HIGH"⟩),
         (⟨"G", 1, ["trauma"]⟩, (8:ℚ), ⟨5, 3, "HIGH"⟩)]).map (fun h => h.id) ≠ some "G") := by
  refine ⟨rfl, rfl, ?_⟩
  intro hcontra
  have hF : (selectPatientHospital .accident .critical
      [(⟨"F", 1, ["trauma"]⟩, (2:ℚ), ⟨0, 0, "HIGH"⟩),
       (⟨"G", 1, ["trauma"]⟩, (8:ℚ), ⟨5, 3, "HIGH"⟩)]).map (fun h => h.id) = some "F" := rfl
  rw [hF] at hcontra
  simp at hcontra

/-- C6 (amended): a zero-bed facility is excluded unless the tier is
critical, in which case the override allocates exactly one emergency bed
and keeps the facility as a candidate — and this happens on every call:
the matcher keeps no per-facility or per-window state, so a second
critical incident is granted the override again rather than failing over. -/
theorem override_uncapped_amended (etype : EmergencyType) (sev : CriticalityLevel)
    (hs : List (HospitalStatic × ℚ × GenAvail)) (h : RealTimeHospital) (g : GenAvail) :
    ((applyCriticalOverride .critical { g with beds := 0 }).beds = 1)
    ∧ ((applyCriticalOverride sev g).beds
        = if sev = .critical ∧ g.beds = 0 then 1 else g.beds)
    ∧ (h ∈ check_hospital_bed_availability etype sev hs ↔
        ∃ p ∈ hs, (0 < p.2.2.beds ∨ sev = .critical)
          ∧ h = buildHospital p.1 p.2.1 (applyCriticalOverride sev p.2.2)) := by
  refine ⟨rfl, ?_, mem_check_iff etype sev hs h⟩
  unfold applyCriticalOverride
  split_ifs <;> rfl

/-- Witness for `override_uncapped_amended`: the zero-bed facility F is a
candidate under a critical tier. -/
theorem override_uncapped_amended_witness :
    buildHospital ⟨"F", 1, ["trauma"]⟩ 2
        (applyCriticalOverride .critical ⟨0, 0, "HIGH"⟩)
      ∈ check_hospital_bed_availability .accident .critical
        [(⟨"F", 1, ["trauma"]⟩, (2:ℚ), ⟨0, 0, "HIGH"⟩)] :=
  (override_uncapped_amended .accident .critical
      [(⟨"F", 1, ["trauma"]⟩, (2:ℚ), ⟨0, 0, "HIGH"⟩)]
      (buildHospital ⟨"F", 1, ["trauma"]⟩ 2
        (applyCriticalOverride .critical ⟨0, 0, "HIGH"⟩)) ⟨0, 0, "HIGH"⟩).2.2.mpr
    ⟨(⟨"F", 1, ["trauma"]⟩, (2:ℚ), ⟨0, 0, "HIGH"⟩), List.mem_singleton.mpr rfl,
      Or.inr rfl, rfl⟩

/-! ## Incident intake theorems (C9) -/

/-- C9: intake never raises a `ValidationError` — no validation exists.
With every required identity field empty the intake still produces a
canonical record with status `RECEIVED`, contradicting the claim that such
inputs fail producing no record. -/
theorem intake_validation_counterexample :
    (collect_family_emergency_details "" "" "" 30 "" "" 0 0 0 0 true true false
        "").caller_name = ""
    ∧ (collect_family_emergency_details "" "" "" 30 "" "" 0 0 0 0 true true false
        "").status = "RECEIVED" :=
  ⟨rfl, rfl⟩

/-- C9 (amended): intake is total and never fails: every completed prompt
sequence yields a canonical record (status `RECEIVED`), even with empty
identity fields; the geolocation is generated inside the Delhi/NCR
bounding region by construction (one of three base points jittered by at
most ±0.05°), and the category always comes from the fixed six-entry
menu. -/
theorem intake_total_amended (cn cp pn : String) (age : ℤ) (el da : String)
    (base : Fin 3) (dLat dLon : ℚ) (choice : Fin 6) (c b bl : Bool) (sym : String)
    (hLat1 : -(1/20 : ℚ) ≤ dLat) (hLat2 : dLat ≤ 1/20)
    (hLon1 : -(1/20 : ℚ) ≤ dLon) (hLon2 : dLon ≤ 1/20) :
    (collect_family_emergency_details cn cp pn age el da base dLat dLon choice
        c b bl sym).status = "RECEIVED"
    ∧ (28.4095 : ℚ) ≤ (collect_family_emergency_details cn cp pn age el da base
        dLat dLon choice c b bl sym).gps_lat
    ∧ (collect_family_emergency_details cn cp pn age el da base dLat dLon choice
        c b bl sym).gps_lat ≤ 28.6639
    ∧ (76.9766 : ℚ) ≤ (collect_family_emergency_details cn cp pn age el da base
        dLat dLon choice c b bl sym).gps_lon
    ∧ (collect_family_emergency_details cn cp pn age el da base dLat dLon choice
        c b bl sym).gps_lon ≤ 77.441
    ∧ (collect_family_emergency_details cn cp pn age el da base dLat dLon choice
        c b bl sym).emergency_type ∈
        [EmergencyType.cardiac, .stroke, .accident, .breathing, .unconscious, .other] := by
  have hlat : (collect_family_emergency_details cn cp pn age el da base dLat dLon
      choice c b bl sym).gps_lat = (base_coords base).1 + dLat := rfl
  have hlon : (collect_family_emergency_details cn cp pn age el da base dLat dLon
      choice c b bl sym).gps_lon = (base_coords base).2 + dLon := rfl
  have htype : (collect_family_emergency_details cn cp pn age el da base dLat dLon
      choice c b bl sym).emergency_type = emergency_types_menu choice := rfl
  refine ⟨rfl, ?_, ?_, ?_, ?_, ?_⟩
  · rw [hlat]; fin_cases base <;> simp [base_coords] <;> linarith
  · rw [hlat]; fin_cases base <;> simp [base_coords] <;> linarith
  · rw [hlon]; fin_cases base <;> simp [base_coords] <;> linarith
  · rw [hlon]; fin_cases base <;> simp [base_coords] <;> linarith
  · rw [htype]; fin_cases choice <;> simp [emergency_types_menu]

/-- Witness for `intake_total_amended` with zero jitter and empty identity
fields. -/
theorem intake_total_amended_witness :
    (collect_family_emergency_details "" "" "" 30 "" "" 0 0 0 0 true true false
        "").status = "RECEIVED" :=
  (intake_total_amended "" "" "" 30 "" "" 0 0 0 0 true true false ""
    (by simp) (by simp) (by simp) (by simp)).1

/-! ## Realtime matcher capacity-ledger theorems (C1) -/

lemma scanHospitals_ok (keep : RTHospital → Bool) (full : List (RTHospital × ℚ)) :
    ∀ (l : List (RTHospital × ℚ)) (i0 : ℕ) (acc : Option (ℕ × ℚ)),
      (∀ k, full[i0 + k]? = l[k]?) →
      (∀ j m, acc = some (j, m) → ∃ h d, full[j]? = some (h, d) ∧ keep h = true) →
      ∀ j m, scanHospitals keep l i0 acc = some (j, m) →
        ∃ h d, full[j]? = some (h, d) ∧ keep h = true
  | [], i0, acc, _, hacc, j, m, hres => hacc j m hres
  | (h, d) :: rest, i0, acc, hful, hacc, j, m, hres => by
      simp only [scanHospitals] at hres
      refine scanHospitals_ok keep full rest (i0 + 1) _ ?_ ?_ j m hres
      · intro k
        have := hful (k + 1)
        rwa [List.getElem?_cons_succ, show i0 + (k + 1) = i0 + 1 + k by omega] at this
      · intro j' m' hacc'
        by_cases hc : (keep h && accBetter d acc) = true
        · rw [if_pos hc] at hacc'
          obtain ⟨hj', hm'⟩ := Prod.mk.injEq .. ▸ Option.some_injective _ hacc'
          subst hj'
          refine ⟨h, d, ?_, (Bool.and_eq_true _ _ ▸ hc).1⟩
          have := hful 0
          simpa using this
        · rw [if_neg hc] at hacc'
          exact hacc j' m' hacc'

lemma rtKeepFirst_beds (pcs : ℤ) (h : RTHospital) (hk : rtKeepFirst pcs h = true) :
    0 < h.available_beds := by
  unfold rtKeepFirst at hk
  split_ifs at hk <;> simp_all

lemma selectHospitalIdx_ok (pcs : ℤ) (hds : List (RTHospital × ℚ)) (i : ℕ) (d : ℚ)
    (hsel : selectHospitalIdx pcs hds = some (i, d)) :
    ∃ h d2, hds[i]? = some (h, d2) ∧ 0 < h.available_beds := by
  unfold selectHospitalIdx at hsel
  cases hscan : scanHospitals (rtKeepFirst pcs) hds 0 none with
  | some r =>
      rw [hscan] at hsel
      obtain rfl : r = (i, d) := Option.some_injective _ hsel
      obtain ⟨h, d2, hg, hk⟩ := scanHospitals_ok (rtKeepFirst pcs) hds hds 0 none
        (fun k => by simp) (by simp) i d hscan
      exact ⟨h, d2, hg, rtKeepFirst_beds pcs h hk⟩
  | none =>
      rw [hscan] at hsel
      obtain ⟨h, d2, hg, hk⟩ := scanHospitals_ok (fun h => decide (0 < h.available_beds))
        hds hds 0 none (fun k => by simp) (by simp) i d hsel
      exact ⟨h, d2, hg, by simpa using hk⟩

lemma decrementBeds_get_self (hs : List RTHospital) (i : ℕ) (h : RTHospital)
    (hg : hs[i]? = some h) :
    (decrementBeds hs i)[i]? = some { h with available_beds := h.available_beds - 1 } := by
  induction hs generalizing i with
  | nil => simp at hg
  | cons x xs ih =>
      cases i with
      | zero =>
          obtain rfl : x = h := by simpa using hg
          simp [decrementBeds]
      | succ n =>
          rw [decrementBeds]
          rw [List.getElem?_cons_succ] at hg ⊢
          exact ih n hg

lemma decrementBeds_get_ne (hs : List RTHospital) (i k : ℕ) (hne : k ≠ i) :
    (decrementBeds hs i)[k]? = hs[k]? := by
  induction hs generalizing i k with
  | nil => cases i <;> rfl
  | cons x xs ih =>
      cases i with
      | zero =>
          cases k with
          | zero => exact absurd rfl hne
          | succ n => simp [decrementBeds]
      | succ m =>
          cases k with
          | zero => simp [decrementBeds]
          | succ n =>
              rw [decrementBeds]
              rw [List.getElem?_cons_succ, List.getElem?_cons_succ]
              exact ih m n (fun hc => hne (by omega))

lemma processAssessment_select (j : RTJob) (hs : List RTHospital) (i : ℕ) (d : ℚ)
    (hsel : selectHospitalIdx j.pcs (hs.zip j.ds) = some (i, d)) :
    ∃ h, hs[i]? = some h ∧ 0 < h.available_beds
      ∧ (processAssessment j hs).1[i]?
          = some { h with available_beds := h.available_beds - 1 }
      ∧ ∀ k, k ≠ i → (processAssessment j hs).1[k]? = hs[k]? := by
  obtain ⟨h, d2, hg, hpos⟩ := selectHospitalIdx_ok j.pcs (hs.zip j.ds) i d hsel
  have hghs : hs[i]? = some h := (List.getElem?_zip_eq_some.mp hg).1
  have hp : (processAssessment j hs).1 = decrementBeds hs i := by
    unfold processAssessment
    rw [hsel]
  exact ⟨h, hghs, hpos, by rw [hp]; exact decrementBeds_get_self hs i h hghs,
    fun k hk => by rw [hp]; exact decrementBeds_get_ne hs i k hk⟩

lemma processAssessment_get (j : RTJob) (hs : List RTHospital) (i : ℕ) (h0 : RTHospital)
    (hg : hs[i]? = some h0) :
    ∃ h1, (processAssessment j hs).1[i]? = some h1
      ∧ h1.available_beds ≤ h0.available_beds
      ∧ (0 ≤ h0.available_beds → 0 ≤ h1.available_beds)
      ∧ h1.id = h0.id := by
  cases hsel : selectHospitalIdx j.pcs (hs.zip j.ds) with
  | none =>
      have hp : (processAssessment j hs).1 = hs := by
        unfold processAssessment
        rw [hsel]
      exact ⟨h0, by rw [hp]; exact hg, le_refl _, fun h => h, rfl⟩
  | some r =>
      obtain ⟨i', d⟩ := r
      obtain ⟨h, hghs, hpos, hset, hother⟩ := processAssessment_select j hs i' d hsel
      by_cases hii : i = i'
      · subst hii
        obtain rfl : h = h0 := by rw [hghs] at hg; exact Option.some_injective _ hg
        exact ⟨_, hset, by simp, fun _ => by simp; omega, rfl⟩
      · exact ⟨h0, by rw [hother i hii]; exact hg, le_refl _, fun h => h, rfl⟩

lemma processAssessment_nonneg (j : RTJob) (hs : List RTHospital)
    (hnn : ∀ h ∈ hs, 0 ≤ h.available_beds) :
    ∀ h ∈ (processAssessment j hs).1, 0 ≤ h.available_beds := by
  intro h1 hmem
  obtain ⟨i, hgi⟩ := List.mem_iff_getElem?.mp hmem
  cases hsel : selectHospitalIdx j.pcs (hs.zip j.ds) with
  | none =>
      have hp : (processAssessment j hs).1 = hs := by
        unfold processAssessment
        rw [hsel]
      rw [hp] at hmem
      exact hnn h1 hmem
  | some r =>
      obtain ⟨i', d⟩ := r
      obtain ⟨h, hghs, hpos, hset, hother⟩ := processAssessment_select j hs i' d hsel
      by_cases hii : i = i'
      · subst hii
        rw [hset] at hgi
        obtain rfl := Option.some_injective _ hgi
        simp
        omega
      · rw [hother i hii] at hgi
        exact hnn h1 (List.mem_iff_getElem?.mpr ⟨i, hgi⟩)

/-- The bed-ledger part of the assessment fold. -/
def processAssessments (jobs : List RTJob) (hs : List RTHospital) : List RTHospital :=
  jobs.foldl (fun st j => (processAssessment j st).1) hs

lemma calc_fst_eq_aux (jobs : List RTJob) :
    ∀ (hs : List RTHospital) (rs : List RouteOptimization),
      (jobs.foldl (fun acc j =>
          let r := processAssessment j acc.1
          (r.1, acc.2 ++ r.2.toList)) (hs, rs)).1
        = processAssessments jobs hs := by
  induction jobs with
  | nil => intro hs rs; rfl
  | cons j rest ih =>
      intro hs rs
      rw [processAssessments, List.foldl_cons, List.foldl_cons]
      exact ih (processAssessment j hs).1 _

lemma calc_fst_eq (jobs : List RTJob) (hs : List RTHospital) :
    (calculate_route_with_cerebras jobs hs).1 = processAssessments jobs hs :=
  calc_fst_eq_aux jobs hs []

lemma processAssessments_nonneg (jobs : List RTJob) :
    ∀ (hs : List RTHospital), (∀ h ∈ hs, 0 ≤ h.available_beds) →
      ∀ h ∈ processAssessments jobs hs, 0 ≤ h.available_beds := by
  induction jobs with
  | nil => intro hs hnn; exact hnn
  | cons j rest ih =>
      intro hs hnn
      rw [processAssessments, List.foldl_cons]
      exact ih (processAssessment j hs).1 (processAssessment_nonneg j hs hnn)

lemma processAssessments_mono (jobs : List RTJob) :
    ∀ (hs : List RTHospital) (i : ℕ) (h0 : RTHospital), hs[i]? = some h0 →
      ∃ h1, (processAssessments jobs hs)[i]? = some h1
        ∧ h1.available_beds ≤ h0.available_beds ∧ h1.id = h0.id := by
  induction jobs with
  | nil => intro hs i h0 hg; exact ⟨h0, hg, le_refl _, rfl⟩
  | cons j rest ih =>
      intro hs i h0 hg
      rw [processAssessments, List.foldl_cons]
      obtain ⟨hmid, hgmid, hle, _, hid⟩ := processAssessment_get j hs i h0 hg
      obtain ⟨h1, hg1, hle1, hid1⟩ := ih (processAssessment j hs).1 i hmid hgmid
      exact ⟨h1, hg1, le_trans hle1 hle, hid1.trans hid⟩

/-- C1: across every sequence of reservations performed by
`calculate_route_with_cerebras`, each hospital's `available_beds` counter
(1) never becomes negative when it started non-negative, (2) is
monotonically non-increasing (pointwise per facility), and (3) each
successful reservation selects a facility with a strictly positive counter
and decrements exactly that facility's counter by exactly 1, leaving every
other facility unchanged. -/
theorem rt_matcher_bed_invariant (jobs : List RTJob) (hs : List RTHospital)
    (hnn : ∀ h ∈ hs, 0 ≤ h.available_beds) :
    (∀ h ∈ (calculate_route_with_cerebras jobs hs).1, 0 ≤ h.available_beds)
    ∧ (∀ (i : ℕ) (h0 : RTHospital), hs[i]? = some h0 →
        ∃ h1, ((calculate_route_with_cerebras jobs hs).1)[i]? = some h1
          ∧ h1.available_beds ≤ h0.available_beds ∧ h1.id = h0.id)
    ∧ (∀ (j : RTJob) (hs' : List RTHospital) (i : ℕ) (d : ℚ),
        selectHospitalIdx j.pcs (hs'.zip j.ds) = some (i, d) →
        ∃ h, hs'[i]? = some h ∧ 0 < h.available_beds
          ∧ (processAssessment j hs').1[i]?
              = some { h with available_beds := h.available_beds - 1 }
          ∧ ∀ k, k ≠ i → (processAssessment j hs').1[k]? = hs'[k]?) := by
  rw [calc_fst_eq]
  exact ⟨processAssessments_nonneg jobs hs hnn,
    fun i h0 hg => processAssessments_mono jobs hs i h0 hg,
    fun j hs' i d hsel => processAssessment_select j hs' i d hsel⟩

/-- Witness for `rt_matcher_bed_invariant`: a single critical assessment
against one level-1 trauma hospital with 15 beds reserves one bed, leaving
the 14-bed ledger entry non-negative. -/
theorem rt_matcher_bed_invariant_witness :
    0 ≤ (RTHospital.mk "AIIMS_TRAUMA" 1 14).available_beds :=
  (rt_matcher_bed_invariant [⟨"ACC_1", 9, [(4:ℚ)], some 7⟩]
    [⟨"AIIMS_TRAUMA", 1, 15⟩]
    (by simp)).1 ⟨"AIIMS_TRAUMA", 1, 14⟩ (List.mem_singleton.mpr rfl)

end LLGCA
